import Mathlib

/-
Verification of the Playwright e-commerce test-suite's page-object and
data-generator layer.  Browser interactions are embedded shallowly: the
outcome of each external DOM query (element visibility, input read-back,
current URL, viewport size) is passed to the embedded function as an
explicit argument, and fallible operations return `Except`.  Waiting
primitives (`waitFor`, `waitForTimeout`) only affect timing, not values,
so they vanish in the embedding; recorded delay amounts are kept where a
claim speaks about them (`retryOperation`).
-/

/- ===== BasePage.getTextContent =====
Source (BasePage.ts):
  await locator.waitFor visible; return await locator.textContent() || '';
`textContent` yields the node's text or null; the JS `|| ''` turns a null
or empty-string (falsy) result into ''.  The embedding takes the raw
`textContent` result as an `Option String`. -/
def getTextContent (textContent : Option String) : String :=
  match textContent with
  | none => ""
  | some t => if t = "" then "" else t

/- ===== BasePage.isVisible =====
Source: try { return await locator.isVisible() } catch { return false }.
The underlying visibility lookup either returns a boolean or throws; the
embedding receives that outcome as an `Except` and models the catch. -/
def isVisible {ε : Type} (visibilityCheck : Except ε Bool) : Bool :=
  match visibilityCheck with
  | Except.ok b => b
  | Except.error _ => false

/- ===== BasePage.getViewportSize / isMobileViewport =====
Source: viewportSize() returns {width, height} or null;
  isMobileViewport() = viewport ? viewport.width < 768 : false. -/
structure ViewportSize where
  width : Int
  height : Int
deriving DecidableEq

def isMobileViewport (viewport : Option ViewportSize) : Bool :=
  match viewport with
  | some v => v.width < 768
  | none => false

/- ===== BasePage.retryOperation =====
Source:
  let lastError: Error;
  for (let i = 0; i < maxRetries; i++) {
    try { return await operation(); }
    catch (error) { lastError = error as Error;
      if (i < maxRetries - 1) await this.page.waitForTimeout(1000 * (i + 1)); } }
  throw lastError!;
The wrapped operation's outcome on its i-th invocation is given by
`op i : Except E T`.  The trace records the returned/thrown value, how
many times `op` was invoked, and the waited delays in order.  A thrown
`lastError` that was never assigned (the TS variable still `undefined`)
is modelled as `Except.error none`; a real captured error as
`Except.error (some e)`. -/
structure RetryTrace (E T : Type) where
  result : Except (Option E) T
  calls : Nat
  delays : List Nat

def retryGo {E T : Type} (op : Nat → Except E T) (maxRetries : Int)
    (i : Nat) (lastError : Option E) (calls : Nat) (delays : List Nat) :
    RetryTrace E T :=
  if h : (i : Int) < maxRetries then
    match op i with
    | Except.ok v => ⟨Except.ok v, calls + 1, delays⟩
    | Except.error e =>
        retryGo op maxRetries (i + 1) (some e) (calls + 1)
          (if (i : Int) < maxRetries - 1 then delays ++ [1000 * (i + 1)] else delays)
  else ⟨Except.error lastError, calls, delays⟩
termination_by (maxRetries - i).toNat
decreasing_by
  simp_wf
  omega

def retryOperation {E T : Type} (op : Nat → Except E T) (maxRetries : Int) :
    RetryTrace E T :=
  retryGo op maxRetries 0 none 0 []

/- ===== ProductDetailPage.setQuantity =====
Source (ProductDetailPage, bundled in CheckoutPage.ts):
  await this.quantityInput.clear();
  await this.quantityInput.fill(quantity.toString());
  const setValue = await this.getCurrentQuantity();
  if (setValue !== quantity.toString()) {
    throw new Error(`Failed to set quantity. Expected: ` + quantity + `, Got: ` + setValue);
  }
The DOM's reaction to the fill is external: `fieldAfterFill s` is the
value `inputValue()` reads back after the field was cleared and filled
with `s`. -/
def setQuantity (quantity : Int) (fieldAfterFill : String → String) :
    Except String Unit :=
  let setValue := fieldAfterFill (toString quantity)
  if setValue ≠ toString quantity then
    Except.error ("Failed to set quantity. Expected: " ++ toString quantity ++
      ", Got: " ++ setValue)
  else
    Except.ok ()

/- ===== CartPage.isRegisterLoginModalVisible =====
Source (CartPage.ts):
  await this.page.waitForTimeout(500);
  const modalVisible = await this.isVisible(this.registerLoginModal);
  const currentUrl = this.getCurrentUrl();
  const isLoginPage = currentUrl.includes('/login');
  return modalVisible || isLoginPage;
`strIncludes` embeds JS String.prototype.includes for a non-empty
pattern (occurrence of the pattern as a contiguous substring). -/
def includesAux (pat : List Char) : List Char → Bool
  | [] => pat.isEmpty
  | c :: rest => pat.isPrefixOf (c :: rest) || includesAux pat rest

def strIncludes (s pat : String) : Bool :=
  includesAux pat.data s.data

def loginFragment : String := "/login"

def isRegisterLoginModalVisible (modalVisible : Bool) (currentUrl : String) : Bool :=
  modalVisible || strIncludes currentUrl loginFragment

/- ===== Spec-side helper: trimming =====
The spec's "trimmed of surrounding whitespace" (JS String.prototype.trim)
expressed over the character list, used only to compare against what the
source actually returns. -/
def jsTrim (s : String) : String :=
  String.mk (((s.data.dropWhile Char.isWhitespace).reverse.dropWhile
    Char.isWhitespace).reverse)

/- ===================== Claim theorems ===================== -/

/-- C1: `setQuantity n` fills the quantity field with the decimal string of
`n`, re-reads the field, returns normally exactly when the read-back value
equals `n`'s string form, and otherwise throws the value-mismatch error
carrying the expected and observed values. -/
theorem setQuantity_roundtrip_check (n : Int) (f : String → String) :
    (setQuantity n f = Except.ok () ↔ f (toString n) = toString n) ∧
    (f (toString n) ≠ toString n →
      setQuantity n f = Except.error ("Failed to set quantity. Expected: " ++
        toString n ++ ", Got: " ++ f (toString n))) := by
  unfold setQuantity
  constructor
  · constructor
    · intro h
      by_contra hne
      rw [if_pos hne] at h
      exact Except.noConfusion h
    · intro h
      rw [if_neg (by simp [h])]
  · intro h
    rw [if_pos h]

/-- Witness for C1: with a faithful field the call succeeds, and with a
field that drops the input the call fails with the mismatch message. -/
theorem setQuantity_roundtrip_check_witness :
    setQuantity 5 (fun s => s) = Except.ok () ∧
    setQuantity 5 (fun _ => ("")) =
      Except.error ("Failed to set quantity. Expected: 5, Got: ") := by
  constructor
  · exact (setQuantity_roundtrip_check 5 (fun s => s)).1.mpr rfl
  · exact (setQuantity_roundtrip_check 5 (fun _ => (""))).2 (by decide)

/-- C6: `isRegisterLoginModalVisible` returns true when the modal is
visible (URL arbitrary, in particular unchanged), true when the modal is
not visible but the URL contains "/login", and false when neither holds. -/
theorem isRegisterLoginModalVisible_cases (mv : Bool) (url : String) :
    (mv = true → isRegisterLoginModalVisible mv url = true) ∧
    (mv = false → strIncludes url loginFragment = true →
      isRegisterLoginModalVisible mv url = true) ∧
    (mv = false → strIncludes url loginFragment = false →
      isRegisterLoginModalVisible mv url = false) := by
  unfold isRegisterLoginModalVisible
  cases mv <;> simp

/-- Witness for C6: a visible modal on the cart URL, a hidden modal on a
login URL, and a hidden modal on the cart URL, each giving the claimed
boolean. -/
theorem isRegisterLoginModalVisible_cases_witness :
    isRegisterLoginModalVisible true ("https://automationexercise.com/view_cart") = true ∧
    isRegisterLoginModalVisible false ("https://automationexercise.com/login") = true ∧
    isRegisterLoginModalVisible false ("https://automationexercise.com/view_cart") = false := by
  refine ⟨?_, ?_, ?_⟩
  · exact (isRegisterLoginModalVisible_cases true
      ("https://automationexercise.com/view_cart")).1 rfl
  · exact (isRegisterLoginModalVisible_cases false
      ("https://automationexercise.com/login")).2.1 rfl (by decide)
  · exact (isRegisterLoginModalVisible_cases false
      ("https://automationexercise.com/view_cart")).2.2 rfl (by decide)

/-- C7 counterexample: `getTextContent` does not trim; on the text
content " x " it returns " x ", while the trimmed form is "x". -/
theorem getTextContent_no_trim_counterexample :
    getTextContent (some (" x ")) = " x " ∧
    jsTrim (" x ") = "x" ∧
    getTextContent (some (" x ")) ≠ jsTrim (" x ") := by
  refine ⟨rfl, by decide, by decide⟩

/-- C7 (amended): `getTextContent` returns the element's text content
exactly as read, with the empty string when the node has no text; no
trimming is performed. -/
theorem getTextContent_returns_raw_text :
    getTextContent none = "" ∧ (∀ t : String, getTextContent (some t) = t) := by
  constructor
  · rfl
  · intro t
    by_cases h : t = "" <;> simp [getTextContent, h]

/-- C8: `isVisible` always returns a boolean: a successful lookup's value
is passed through, and any thrown lookup error is swallowed into `false`. -/
theorem isVisible_never_throws {ε : Type} (e : ε) (b : Bool) :
    isVisible (Except.ok b : Except ε Bool) = b ∧
    isVisible (Except.error e : Except ε Bool) = false := by
  exact ⟨rfl, rfl⟩

/-- C10: with no configured viewport `isMobileViewport` returns false, and
with a viewport it returns true exactly when the width is strictly below
768. -/
theorem isMobileViewport_threshold :
    isMobileViewport none = false ∧
    (∀ vp : ViewportSize, isMobileViewport (some vp) = decide (vp.width < 768)) ∧
    (∀ vp : Option ViewportSize,
      isMobileViewport vp = true ↔ ∃ v, vp = some v ∧ v.width < 768) := by
  refine ⟨rfl, fun vp => rfl, fun vp => ?_⟩
  cases vp with
  | none => simp [isMobileViewport]
  | some v => simp [isMobileViewport]

/- ===== Step lemmas for the retry loop ===== -/

theorem retryGo_stop {E T : Type} (op : Nat → Except E T) (m : Int)
    (i : Nat) (le : Option E) (c : Nat) (d : List Nat)
    (hm : ¬ ((i : Int) < m)) :
    retryGo op m i le c d = ⟨Except.error le, c, d⟩ := by
  rw [retryGo.eq_def, dif_neg hm]

theorem retryGo_ok {E T : Type} (op : Nat → Except E T) (m : Int)
    (i : Nat) (le : Option E) (c : Nat) (d : List Nat) (v : T)
    (hm : (i : Int) < m) (hop : op i = Except.ok v) :
    retryGo op m i le c d = ⟨Except.ok v, c + 1, d⟩ := by
  rw [retryGo.eq_def, dif_pos hm, hop]

theorem retryGo_err {E T : Type} (op : Nat → Except E T) (m : Int)
    (i : Nat) (le : Option E) (c : Nat) (d : List Nat) (e : E)
    (hm : (i : Int) < m) (hop : op i = Except.error e) :
    retryGo op m i le c d =
      retryGo op m (i + 1) (some e) (c + 1)
        (if (i : Int) < m - 1 then d ++ [1000 * (i + 1)] else d) := by
  rw [retryGo.eq_def, dif_pos hm, hop]

/-- C2: with maxRetries = 3, an operation that fails twice then succeeds
yields the third invocation's success value after exactly 3 invocations
with the strictly increasing delays 1000·1 and 1000·2 between attempts;
an operation failing on all three invocations makes `retryOperation`
re-throw the error captured from the last (third) invocation. -/
theorem retryOperation_three_attempts {E T : Type}
    (op opBad : Nat → Except E T) (e0 e1 : E) (v : T) (f0 f1 f2 : E)
    (h0 : op 0 = Except.error e0) (h1 : op 1 = Except.error e1)
    (h2 : op 2 = Except.ok v)
    (g0 : opBad 0 = Except.error f0) (g1 : opBad 1 = Except.error f1)
    (g2 : opBad 2 = Except.error f2) :
    retryOperation op 3 = ⟨Except.ok v, 3, [1000 * 1, 1000 * 2]⟩ ∧
    List.Chain' (· < ·) (retryOperation op 3).delays ∧
    retryOperation opBad 3 = ⟨Except.error (some f2), 3, [1000 * 1, 1000 * 2]⟩ := by
  have hgood : retryOperation op 3 = ⟨Except.ok v, 3, [1000 * 1, 1000 * 2]⟩ := by
    unfold retryOperation
    rw [retryGo_err op 3 0 none 0 [] e0 (by norm_num) h0]
    rw [retryGo_err op 3 1 (some e0) 1 _ e1 (by norm_num) h1]
    rw [retryGo_ok op 3 2 (some e1) 2 _ v (by norm_num) h2]
    norm_num
  refine ⟨hgood, ?_, ?_⟩
  · rw [hgood]
    simp
  · unfold retryOperation
    rw [retryGo_err opBad 3 0 none 0 [] f0 (by norm_num) g0]
    rw [retryGo_err opBad 3 1 (some f0) 1 _ f1 (by norm_num) g1]
    rw [retryGo_err opBad 3 2 (some f1) 2 _ f2 (by norm_num) g2]
    rw [retryGo_stop opBad 3 3 (some f2) 3 _ (by norm_num)]
    norm_num

/-- Witness for C2: a concrete operation succeeding on its third
invocation and a concrete operation failing on all three. -/
theorem retryOperation_three_attempts_witness :
    retryOperation (fun i => if i < 2 then Except.error i else Except.ok (7 : Nat)) 3 =
      ⟨Except.ok 7, 3, [1000 * 1, 1000 * 2]⟩ ∧
    List.Chain' (· < ·) (retryOperation
      (fun i => if i < 2 then Except.error i else Except.ok (7 : Nat)) 3).delays ∧
    retryOperation (fun i => (Except.error i : Except Nat Nat)) 3 =
      ⟨Except.error (some 2), 3, [1000 * 1, 1000 * 2]⟩ :=
  retryOperation_three_attempts
    (fun i => if i < 2 then Except.error i else Except.ok (7 : Nat))
    (fun i => (Except.error i : Except Nat Nat))
    0 1 7 0 1 2 rfl rfl rfl rfl rfl rfl

/-- C9: for maxRetries ≤ 0 the loop body never runs, the wrapped
operation is invoked zero times, no delay is waited, and the throw site
re-throws the never-assigned last-error variable (the undefined value,
modelled as `Except.error none`) rather than a captured error. -/
theorem retryOperation_nonpositive_retries {E T : Type}
    (op : Nat → Except E T) (m : Int) (hm : m ≤ 0) :
    retryOperation op m = ⟨Except.error none, 0, []⟩ := by
  unfold retryOperation
  exact retryGo_stop op m 0 none 0 [] (by omega)

/-- Witness for C9: maxRetries = 0 on a concrete always-succeeding
operation still invokes it zero times and throws the undefined value. -/
theorem retryOperation_nonpositive_retries_witness :
    retryOperation (fun _ => (Except.ok 1 : Except Unit Nat)) 0 =
      ⟨Except.error none, 0, []⟩ :=
  retryOperation_nonpositive_retries (fun _ => (Except.ok 1 : Except Unit Nat)) 0
    (by norm_num)

/- ===== DataGenerator (src/unnamed/part_004) and its faker inputs =====
The generator delegates every random draw to the external faker library.
Each faker call is embedded by its documented contract, with the raw
randomness passed in as an explicit argument, so that the repository's
own code (the record construction, the derivations between fields) stays
the object of proof. -/

/- Modelled from the documented contract of faker.number.int({min,max}):
throws a FakerError "Max ... should be greater than min ..." when
max < min, otherwise returns a uniform integer of [min,max]; the raw
draw r is reduced into the range. -/
def fakerNumberInt (r : Nat) (lo hi : Int) : Except String Int :=
  if hi < lo then
    Except.error ("Max " ++ toString hi ++ " should be greater than min " ++
      toString lo ++ ".")
  else
    Except.ok (lo + (↑(r % (hi - lo + 1).toNat) : Int))

/- Source: generateRandomQuantity(min = 1, max = 20) = faker.number.int({min, max}). -/
def generateRandomQuantity (r : Nat) (lo hi : Int) : Except String Int :=
  fakerNumberInt r lo hi

def generateRandomQuantityDefault (r : Nat) : Except String Int :=
  generateRandomQuantity r 1 20

/- Modelled from the documented contract of faker.helpers.arrayElement:
a uniform pick from the list, here by reducing the raw draw modulo the
length. -/
def arrayElementS (l : List String) (k : Nat) : String :=
  l.getD (k % l.length) ""

/- A JS Date value as the generator observes it: getFullYear / getMonth
(0-based) / getDate (day of month), plus a residue ordering time within
one day.  `ltB` is the strict chronological order of two such values. -/
structure JSDate where
  year : Int
  month : Fin 12
  day : Nat
  timeRest : Nat
deriving DecidableEq

def JSDate.getFullYear (d : JSDate) : Int := d.year

def JSDate.getMonth (d : JSDate) : Nat := d.month.val

def JSDate.getDate (d : JSDate) : Nat := d.day

def JSDate.ltB (a b : JSDate) : Bool :=
  a.year < b.year ||
  (a.year == b.year && (a.month.val < b.month.val ||
    (a.month.val == b.month.val && (a.day < b.day ||
      (a.day == b.day && a.timeRest < b.timeRest)))))

/- Modelled from the documented contract of faker.string.numeric with
length 3 and leading zeros allowed (the body of faker.finance.creditCardCVV):
three independent decimal digit draws. -/
def digitChar (d : Fin 10) : Char := Char.ofNat (48 + d.val)

def numericString3 (a b c : Fin 10) : String :=
  String.mk [digitChar a, digitChar b, digitChar c]

/- Source:
  generateCreditCard() = {
    number: faker.finance.creditCardNumber(),
    cvv: faker.finance.creditCardCVV(),
    expiryMonth: faker.date.future().getMonth() + 1,
    expiryYear: faker.date.future().getFullYear() }
The two faker.date.future() draws are independent; their contract (a
date strictly after the generation instant) is a hypothesis of the
theorems, stated via JSDate.ltB. -/
structure CreditCard where
  number : String
  cvv : String
  expiryMonth : Nat
  expiryYear : Int
deriving DecidableEq

structure CreditCardDraws where
  number : String
  c1 : Fin 10
  c2 : Fin 10
  c3 : Fin 10
  future1 : JSDate
  future2 : JSDate
deriving DecidableEq

def generateCreditCard (d : CreditCardDraws) : CreditCard :=
  { number := d.number
    cvv := numericString3 d.c1 d.c2 d.c3
    expiryMonth := d.future1.getMonth + 1
    expiryYear := d.future2.getFullYear }

/- Source:
  generateDateOfBirth() = with birthDate = faker.date.birthdate({min:18,max:80,mode:'age'}):
  { day: birthDate.getDate().toString(),
    month: (birthDate.getMonth() + 1).toString(),
    year: birthDate.getFullYear().toString() } -/
structure DateOfBirth where
  day : String
  month : String
  year : String
deriving DecidableEq

def generateDateOfBirth (birthDate : JSDate) : DateOfBirth :=
  { day := toString birthDate.getDate
    month := toString (birthDate.getMonth + 1)
    year := toString birthDate.getFullYear }

/-- C3: for min ≤ max, `generateRandomQuantity` returns an integer within
[min, max] inclusive (the defaults being 1 and 20), and for min > max it
fails fast with faker's descriptive range error instead of swapping the
bounds. -/
theorem generateRandomQuantity_bounds (r : Nat) (lo hi : Int) :
    (lo ≤ hi → ∃ v, generateRandomQuantity r lo hi = Except.ok v ∧
      lo ≤ v ∧ v ≤ hi) ∧
    (hi < lo → generateRandomQuantity r lo hi =
      Except.error ("Max " ++ toString hi ++ " should be greater than min " ++
        toString lo ++ ".")) ∧
    generateRandomQuantityDefault r = generateRandomQuantity r 1 20 := by
  refine ⟨?_, ?_, rfl⟩
  · intro hle
    refine ⟨lo + (↑(r % (hi - lo + 1).toNat) : Int), ?_, ?_, ?_⟩
    · unfold generateRandomQuantity fakerNumberInt
      rw [if_neg (by omega)]
    · omega
    · have hpos : 0 < (hi - lo + 1).toNat := by omega
      have hlt : r % (hi - lo + 1).toNat < (hi - lo + 1).toNat :=
        Nat.mod_lt r hpos
      omega
  · intro hgt
    unfold generateRandomQuantity fakerNumberInt
    rw [if_pos hgt]

/-- Witness for C3: the range [1, 20] with raw draw 7 yields an in-range
value, and the malformed range [5, 2] yields the descriptive error. -/
theorem generateRandomQuantity_bounds_witness :
    (∃ v, generateRandomQuantity 7 1 20 = Except.ok v ∧ 1 ≤ v ∧ v ≤ 20) ∧
    generateRandomQuantity 7 5 2 =
      Except.error ("Max 2 should be greater than min 5.") := by
  constructor
  · exact (generateRandomQuantity_bounds 7 1 20).1 (by norm_num)
  · exact (generateRandomQuantity_bounds 7 5 2).2.1 (by norm_num)

/- ===== Helper lemmas about dates and digits ===== -/

theorem JSDate.ltB_year_le (a b : JSDate) (h : JSDate.ltB a b = true) :
    a.year ≤ b.year := by
  unfold JSDate.ltB at h
  simp only [Bool.or_eq_true, Bool.and_eq_true, beq_iff_eq,
    decide_eq_true_eq] at h
  rcases h with h | ⟨h, _⟩ <;> omega

theorem digitChar_isDigit : ∀ k : Fin 10, (digitChar k).isDigit = true := by
  decide

/- Sample generation instant and a strictly later date in the same
calendar year (mid-March 2026 and early June 2026). -/
def sampleNow : JSDate := ⟨2026, 2, 15, 0⟩

def sampleFuture : JSDate := ⟨2026, 5, 1, 0⟩

def sampleCardDraws : CreditCardDraws :=
  ⟨"4111111111111111", 1, 2, 3, sampleFuture, sampleFuture⟩

/-- C4 counterexample: a faker "future date" draw that is strictly after
the generation instant but still inside the same calendar year makes
`generateCreditCard` return an expiryYear equal to — not strictly after —
the generation year. -/
theorem generateCreditCard_expiryYear_counterexample :
    JSDate.ltB sampleNow sampleFuture = true ∧
    (generateCreditCard sampleCardDraws).expiryYear = sampleNow.getFullYear ∧
    ¬ (sampleNow.getFullYear < (generateCreditCard sampleCardDraws).expiryYear) := by
  decide

/-- C4 (amended): `generateCreditCard` returns a cvv that is a 3-digit
numeric string (within the claimed 3–4 digits), an expiryMonth in
[1, 12], and an expiryYear that is the year of a date strictly after the
generation instant — hence at least the generation year, though possibly
equal to it. -/
theorem generateCreditCard_fields (now : JSDate) (d : CreditCardDraws)
    (h1 : JSDate.ltB now d.future1 = true)
    (h2 : JSDate.ltB now d.future2 = true) :
    (generateCreditCard d).cvv.length = 3 ∧
    (∀ c ∈ (generateCreditCard d).cvv.data, c.isDigit = true) ∧
    1 ≤ (generateCreditCard d).expiryMonth ∧
    (generateCreditCard d).expiryMonth ≤ 12 ∧
    now.getFullYear ≤ (generateCreditCard d).expiryYear := by
  refine ⟨rfl, ?_, ?_, ?_, ?_⟩
  · intro c hc
    have hdata : (generateCreditCard d).cvv.data =
        [digitChar d.c1, digitChar d.c2, digitChar d.c3] := rfl
    rw [hdata] at hc
    simp only [List.mem_cons, List.not_mem_nil, or_false] at hc
    rcases hc with rfl | rfl | rfl <;> exact digitChar_isDigit _
  · exact Nat.le_add_left 1 _
  · have := d.future1.month.isLt
    show d.future1.month.val + 1 ≤ 12
    omega
  · exact JSDate.ltB_year_le now d.future2 h2

/-- Witness for C4's amended theorem at the sample instant and draws. -/
theorem generateCreditCard_fields_witness :
    (generateCreditCard sampleCardDraws).cvv.length = 3 ∧
    (∀ c ∈ (generateCreditCard sampleCardDraws).cvv.data, c.isDigit = true) ∧
    1 ≤ (generateCreditCard sampleCardDraws).expiryMonth ∧
    (generateCreditCard sampleCardDraws).expiryMonth ≤ 12 ∧
    sampleNow.getFullYear ≤ (generateCreditCard sampleCardDraws).expiryYear :=
  generateCreditCard_fields sampleNow sampleCardDraws (by decide) (by decide)

/- ===== faker.internet.email and JS toLowerCase =====
Modelled from the documented contract of faker.internet.email({firstName,
lastName}): a local part derived from the names (whose raw form is the
`localSeed` draw) is sanitized to the characters [A-Za-z0-9._+-], then
"@" and a provider drawn from the fixed free-email list are appended.
The source then applies JS String.prototype.toLowerCase; the sanitized
email is pure ASCII, where toLowerCase is exactly the ASCII shift. -/
def emailAllowedChar (c : Char) : Bool :=
  c.isAlphanum || c = '.' || c = '_' || c = '+' || c = '-'

def sanitizeLocalPart (s : String) : String :=
  String.mk (s.data.filter emailAllowedChar)

def freeEmailProviders : List String :=
  ["gmail.com", "yahoo.com", "hotmail.com"]

def fakerInternetEmail (localSeed : String) (providerSeed : Nat) : String :=
  sanitizeLocalPart localSeed ++ "@" ++ arrayElementS freeEmailProviders providerSeed

def isAsciiUpper (c : Char) : Bool :=
  decide (65 ≤ c.toNat) && decide (c.toNat ≤ 90)

def jsCharToLower (c : Char) : Char :=
  if isAsciiUpper c then Char.ofNat (c.toNat + 32) else c

def jsToLowerCase (s : String) : String :=
  String.mk (s.data.map jsCharToLower)

/- ===== DataGenerator.generateUserData =====
Source:
  const genre = faker.helpers.arrayElement(['male', 'female']);
  const firstName = faker.person.firstName(genre);
  const lastName = faker.person.lastName();
  const password = faker.internet.password({ length: 12 });
  const dateofBirth = this.generateDateOfBirth();
  const creditCard = this.generateCreditCard();
  return { name: firstName + ' ' + lastName,
    email: faker.internet.email({ firstName, lastName }).toLowerCase(),
    title: genre === 'male' ? 'Mr' : 'Mrs', password, firstName, lastName,
    day/month/year from dateofBirth, company, address1, address2,
    country: faker.helpers.arrayElement([7 fixed countries]), state, city,
    zipcode, mobileNumber, cardNumber/cvv/expiryMonth/expiryYear from creditCard };
Every faker draw is an explicit field of `UserDraws`. -/
def genders : List String := ["male", "female"]

def countries : List String :=
  ["India", "United States", "Canada", "Australia", "Israel",
   "New Zealand", "Singapore"]

structure GeneratedUser where
  name : String
  email : String
  title : String
  password : String
  firstName : String
  lastName : String
  day : String
  month : String
  year : String
  company : String
  address1 : String
  address2 : String
  country : String
  state : String
  city : String
  zipcode : String
  mobileNumber : String
  cardNumber : String
  cvv : String
  expiryMonth : Nat
  expiryYear : Int

structure UserDraws where
  genreSeed : Nat
  firstName : String
  lastName : String
  password : String
  localSeed : String
  providerSeed : Nat
  birthDate : JSDate
  company : String
  address1 : String
  address2 : String
  countrySeed : Nat
  state : String
  city : String
  zipcode : String
  mobileNumber : String
  cardDraws : CreditCardDraws

def generateUserData (d : UserDraws) : GeneratedUser :=
  let genre := arrayElementS genders d.genreSeed
  let dateofBirth := generateDateOfBirth d.birthDate
  let creditCard := generateCreditCard d.cardDraws
  { name := d.firstName ++ " " ++ d.lastName
    email := jsToLowerCase (fakerInternetEmail d.localSeed d.providerSeed)
    title := if genre = "male" then "Mr" else "Mrs"
    password := d.password
    firstName := d.firstName
    lastName := d.lastName
    day := dateofBirth.day
    month := dateofBirth.month
    year := dateofBirth.year
    company := d.company
    address1 := d.address1
    address2 := d.address2
    country := arrayElementS countries d.countrySeed
    state := d.state
    city := d.city
    zipcode := d.zipcode
    mobileNumber := d.mobileNumber
    cardNumber := creditCard.number
    cvv := creditCard.cvv
    expiryMonth := creditCard.expiryMonth
    expiryYear := creditCard.expiryYear }

/- ===== Helper lemmas for the email and title proofs ===== -/

theorem isAsciiUpper_shift : ∀ m : Nat, 65 ≤ m → m ≤ 90 →
    isAsciiUpper (Char.ofNat (m + 32)) = false ∧ Char.ofNat (m + 32) ≠ '@' := by
  intro m h1 h2
  interval_cases m <;> exact ⟨by decide, by decide⟩

theorem jsCharToLower_not_upper (c : Char) :
    isAsciiUpper (jsCharToLower c) = false := by
  unfold jsCharToLower
  by_cases h : isAsciiUpper c = true
  · rw [if_pos h]
    unfold isAsciiUpper at h
    rw [Bool.and_eq_true, decide_eq_true_eq, decide_eq_true_eq] at h
    exact (isAsciiUpper_shift c.toNat h.1 h.2).1
  · rw [if_neg h]
    exact Bool.eq_false_iff.mpr h

theorem jsCharToLower_at (c : Char) (h : jsCharToLower c = '@') : c = '@' := by
  unfold jsCharToLower at h
  by_cases hU : isAsciiUpper c = true
  · rw [if_pos hU] at h
    unfold isAsciiUpper at hU
    rw [Bool.and_eq_true, decide_eq_true_eq, decide_eq_true_eq] at hU
    exact absurd h (isAsciiUpper_shift c.toNat hU.1 hU.2).2
  · rwa [if_neg hU] at h

theorem strMk_append (a b : List Char) :
    String.mk a ++ String.mk b = String.mk (a ++ b) := rfl

theorem jsToLowerCase_append (a b : String) :
    jsToLowerCase (a ++ b) = jsToLowerCase a ++ jsToLowerCase b := by
  cases a with
  | mk la =>
    cases b with
    | mk lb =>
      show String.mk ((la ++ lb).map jsCharToLower) =
        String.mk (la.map jsCharToLower) ++ String.mk (lb.map jsCharToLower)
      rw [strMk_append, List.map_append]

theorem strMk_ne_empty (l : List Char) (h : l ≠ []) : String.mk l ≠ "" := by
  intro heq
  exact h (by simpa using congrArg String.data heq)

theorem provider_lower_ok (k : Nat) :
    jsToLowerCase (arrayElementS freeEmailProviders k) ≠ "" ∧
    '@' ∉ (jsToLowerCase (arrayElementS freeEmailProviders k)).data := by
  have hlen : freeEmailProviders.length = 3 := rfl
  have h3 : k % freeEmailProviders.length = 0 ∨
      k % freeEmailProviders.length = 1 ∨
      k % freeEmailProviders.length = 2 := by rw [hlen]; omega
  unfold arrayElementS
  rcases h3 with h | h | h <;> rw [h] <;> exact ⟨by decide, by decide⟩

theorem local_lower_ok (seed : String) (h : sanitizeLocalPart seed ≠ "") :
    jsToLowerCase (sanitizeLocalPart seed) ≠ "" ∧
    '@' ∉ (jsToLowerCase (sanitizeLocalPart seed)).data := by
  constructor
  · apply strMk_ne_empty
    intro hmap
    rw [List.map_eq_nil_iff] at hmap
    apply h
    have hfil : List.filter emailAllowedChar seed.data = [] := hmap
    show String.mk (List.filter emailAllowedChar seed.data) = ""
    rw [hfil]
  · intro hmem
    rw [show (jsToLowerCase (sanitizeLocalPart seed)).data =
      (seed.data.filter emailAllowedChar).map jsCharToLower from rfl] at hmem
    rcases List.mem_map.mp hmem with ⟨a, haMem, haEq⟩
    have haAt : a = '@' := jsCharToLower_at a haEq
    have hallow : emailAllowedChar a = true := (List.mem_filter.mp haMem).2
    rw [haAt] at hallow
    exact absurd hallow (by decide)

/-- C5: `generateUserData` produces an email of the shape
local@domain with non-empty local and domain parts and no further "@",
entirely lower-cased (no ASCII uppercase letter survives), and a title
that is "Mr" exactly when the internally chosen gender token is "male"
and "Mrs" exactly when it is "female", with no third value.  The
hypothesis states that the name-derived local part does not sanitize to
nothing, which holds for every faker-generated name. -/
theorem generateUserData_email_title (d : UserDraws)
    (hLocal : sanitizeLocalPart d.localSeed ≠ "") :
    (∃ localPart domainPart : String,
      (generateUserData d).email = localPart ++ "@" ++ domainPart ∧
      localPart ≠ "" ∧ domainPart ≠ "" ∧
      '@' ∉ localPart.data ∧ '@' ∉ domainPart.data) ∧
    (∀ c ∈ (generateUserData d).email.data, isAsciiUpper c = false) ∧
    ((generateUserData d).title = "Mr" ↔
      arrayElementS genders d.genreSeed = "male") ∧
    ((generateUserData d).title = "Mrs" ↔
      arrayElementS genders d.genreSeed = "female") ∧
    ((generateUserData d).title = "Mr" ∨ (generateUserData d).title = "Mrs") := by
  refine ⟨?_, ?_, ?_⟩
  · have hemail : (generateUserData d).email =
        jsToLowerCase (sanitizeLocalPart d.localSeed) ++ "@" ++
        jsToLowerCase (arrayElementS freeEmailProviders d.providerSeed) := by
      show jsToLowerCase (fakerInternetEmail d.localSeed d.providerSeed) = _
      unfold fakerInternetEmail
      rw [jsToLowerCase_append, jsToLowerCase_append]
      rw [show jsToLowerCase ("@") = "@" from by decide]
    obtain ⟨hLne, hLat⟩ := local_lower_ok d.localSeed hLocal
    obtain ⟨hPne, hPat⟩ := provider_lower_ok d.providerSeed
    exact ⟨_, _, hemail, hLne, hPne, hLat, hPat⟩
  · intro c hc
    have hdata : (generateUserData d).email.data =
        (fakerInternetEmail d.localSeed d.providerSeed).data.map jsCharToLower := rfl
    rw [hdata] at hc
    rcases List.mem_map.mp hc with ⟨a, _, rfl⟩
    exact jsCharToLower_not_upper a
  · have hlen : genders.length = 2 := rfl
    have h2 : d.genreSeed % genders.length = 0 ∨
        d.genreSeed % genders.length = 1 := by rw [hlen]; omega
    have htitle : (generateUserData d).title =
        (if arrayElementS genders d.genreSeed = "male" then "Mr" else "Mrs") := rfl
    have hg : arrayElementS genders d.genreSeed = "male" ∨
        arrayElementS genders d.genreSeed = "female" := by
      unfold arrayElementS
      rcases h2 with h | h <;> rw [h]
      · left; rfl
      · right; rfl
    rcases hg with hgm | hgf
    · rw [htitle, hgm]
      refine ⟨?_, ?_, ?_⟩ <;> decide
    · rw [htitle, hgf]
      refine ⟨?_, ?_, ?_⟩ <;> decide

/- Concrete draws for the C5 witness. -/
def sampleUserDraws : UserDraws :=
  { genreSeed := 0
    firstName := "John"
    lastName := "Doe"
    password := "secret123456"
    localSeed := "John.Doe42"
    providerSeed := 0
    birthDate := ⟨1990, 4, 12, 0⟩
    company := "Acme"
    address1 := "1 Main St"
    address2 := "Apt 2"
    countrySeed := 2
    state := "California"
    city := "Sacramento"
    zipcode := "94000"
    mobileNumber := "5551234567"
    cardDraws := sampleCardDraws }

/-- Witness for C5 at concrete draws: the discharged conclusion of the
email/title theorem for a sample user. -/
theorem generateUserData_email_title_witness :
    (∃ localPart domainPart : String,
      (generateUserData sampleUserDraws).email = localPart ++ "@" ++ domainPart ∧
      localPart ≠ "" ∧ domainPart ≠ "" ∧
      '@' ∉ localPart.data ∧ '@' ∉ domainPart.data) ∧
    (∀ c ∈ (generateUserData sampleUserDraws).email.data, isAsciiUpper c = false) ∧
    ((generateUserData sampleUserDraws).title = "Mr" ↔
      arrayElementS genders sampleUserDraws.genreSeed = "male") ∧
    ((generateUserData sampleUserDraws).title = "Mrs" ↔
      arrayElementS genders sampleUserDraws.genreSeed = "female") ∧
    ((generateUserData sampleUserDraws).title = "Mr" ∨
      (generateUserData sampleUserDraws).title = "Mrs") :=
  generateUserData_email_title sampleUserDraws (by decide)
